import Mathlib

/-!
Shallow embedding of the typed-notion schema core
(src/schema: validator.ts and the valibot validation module, src/errors,
TypedSchema handle).  JavaScript runtime values are modelled by the
inductive `JSValue`; JS numbers keep the three non-finite points that
matter to `typeof`/`isNaN` tests.  Fallible code returns `Except`.
-/

namespace TypedNotion

/-- JS number model: a finite value (integer payload suffices for the
properties under study), NaN, +Infinity, -Infinity. -/
inductive JSNumber where
  | finite (q : Int)
  | nan
  | posInf
  | negInf
deriving DecidableEq, Repr

/-- Untyped JavaScript runtime value, as seen by the validators. -/
inductive JSValue where
  | vNull
  | vUndefined
  | vBool (b : Bool)
  | vNum (n : JSNumber)
  | vStr (s : String)
  | vArr (elems : List JSValue)
  | vObj (fields : List (String × JSValue))
  | vDate
deriving Repr

/-- JS `typeof` (as a string); `typeof null` is "object". -/
def jsTypeof : JSValue → String
  | .vNull => "object"
  | .vUndefined => "undefined"
  | .vBool _ => "boolean"
  | .vNum _ => "number"
  | .vStr _ => "string"
  | .vArr _ => "object"
  | .vObj _ => "object"
  | .vDate => "object"

/-- JS truthiness. -/
def truthy : JSValue → Bool
  | .vNull => false
  | .vUndefined => false
  | .vBool b => b
  | .vNum (.finite q) => q ≠ 0
  | .vNum .nan => false
  | .vNum .posInf => true
  | .vNum .negInf => true
  | .vStr s => s ≠ ""
  | .vArr _ => true
  | .vObj _ => true
  | .vDate => true

/-- First binding of a key in an object's field list (JS object literals
cannot repeat keys; lookup of an absent key yields `undefined`). -/
def getField : List (String × JSValue) → String → JSValue
  | [], _ => .vUndefined
  | (k, v) :: rest, key => if k = key then v else getField rest key

/-- Property access `value[key]` for the fields the validators read:
objects look the key up, everything else yields `undefined`. -/
def getFieldV : JSValue → String → JSValue
  | .vObj fields, key => getField fields key
  | _, _ => .vUndefined

/-- JS `key in obj` membership for object literals. -/
def hasKey : List (String × JSValue) → String → Bool
  | [], _ => false
  | (k, _) :: rest, key => k = key || hasKey rest key

/-- ASCII letter, the `[a-zA-Z]` class. -/
def isAsciiLetter (c : Char) : Bool :=
  (decide ('a' ≤ c) && decide (c ≤ 'z')) || (decide ('A' ≤ c) && decide (c ≤ 'Z'))

/-- ASCII digit, the `[0-9]` class. -/
def isAsciiDigit (c : Char) : Bool :=
  decide ('0' ≤ c) && decide (c ≤ '9')

/-- The JS `\s` class, restricted to its ASCII members (the inputs the
claims exercise are ASCII; JS additionally matches some Unicode spaces). -/
def isJSWhitespace (c : Char) : Bool :=
  c = ' ' || c = '\t' || c = '\n' || c = '\r' || c = '\x0b' || c = '\x0c'

/-- The `[a-f0-9-]` class used by the database-id regexes. -/
def isLowHexOrDash (c : Char) : Bool :=
  (decide ('a' ≤ c) && decide (c ≤ 'f')) || isAsciiDigit c || c = '-'

/-- A string is blank when `trim()` leaves nothing, i.e. every character
is whitespace. -/
def isBlank (s : String) : Bool :=
  s.toList.all isJSWhitespace

/-- Set-based duplicate detection (`new Set(xs).size !== xs.length`). -/
def hasDup : List String → Bool
  | [] => false
  | x :: xs => xs.contains x || hasDup xs

/-- `isValidDatabaseId` / the valibot databaseId regex:
`^[a-f0-9\-]{36}$`, i.e. exactly 36 characters from `[a-f0-9-]`. -/
def isValidDatabaseId (id : String) : Bool :=
  id.length = 36 && id.toList.all isLowHexOrDash

/-- `isValidEmail`: the regex `^[^\s@]+@[^\s@]+\.[^\s@]+$` together with a
length bound of 254.  The regex holds exactly when the string contains a
single `@`, both sides are non-empty and whitespace-free, and the part
after the `@` has a `.` that is neither its first nor its last
character. -/
def isValidEmail (email : String) : Bool :=
  let cs := email.toList
  let localPart := cs.takeWhile (fun c => c ≠ '@')
  match cs.dropWhile (fun c => c ≠ '@') with
  | '@' :: domain =>
      decide (email.length ≤ 254) &&
      localPart ≠ [] && localPart.all (fun c => !isJSWhitespace c) &&
      domain ≠ [] && !domain.contains '@' &&
      domain.all (fun c => !isJSWhitespace c) &&
      (domain.drop 1).dropLast.contains '.'
  | _ => false

/-- Modelled from the spec: `isValidURL` delegates to the platform WHATWG
`URL` parser, which is not part of this repository; per the spec a value
is a valid URL iff it parses as an absolute URL whose scheme is `http` or
`https`.  Modelled as an http(s) scheme prefix followed by a non-empty
remainder. -/
def isValidURL (url : String) : Bool :=
  (decide (url.toList.take 7 = ['h', 't', 't', 'p', ':', '/', '/']) &&
    decide (url.length > 7)) ||
  (decide (url.toList.take 8 = ['h', 't', 't', 'p', 's', ':', '/', '/']) &&
    decide (url.length > 8))

/-- `isValidNotionUser`: object with a non-empty string `id`, `name`
absent, null or a string, and `type` either "person" or "bot". -/
def isValidNotionUser (user : JSValue) : Bool :=
  match user with
  | .vObj fields =>
      (match getField fields "id" with
       | .vStr s => s ≠ ""
       | _ => false) &&
      (match getField fields "name" with
       | .vNull => true
       | .vUndefined => true
       | .vStr _ => true
       | _ => false) &&
      (match getField fields "type" with
       | .vStr s => s = "person" || s = "bot"
       | _ => false)
  | _ => false

/-- Number format tags accepted for the `number` variant. -/
inductive NumberFormat where
  | number
  | percent
  | dollar
deriving DecidableEq, Repr

/-- The typed `PropertyDefinition` discriminated union (10 variants;
`select`/`multi_select` carry their options, `number` an optional
format). -/
inductive PropertyDefinition where
  | title
  | rich_text
  | number (format : Option NumberFormat)
  | checkbox
  | date
  | url
  | email
  | select (options : List String)
  | multi_select (options : List String)
  | people
deriving DecidableEq, Repr

/-- A validated `SchemaDefinition`: database id plus the ordered
name-to-definition map. -/
structure Schema where
  databaseId : String
  properties : List (String × PropertyDefinition)
deriving DecidableEq, Repr

/-- The typed error taxonomy from src/errors (each variant keeps its
structured context fields). -/
inductive TypedError where
  | schemaValidation (property : String) (expected : String) (received : JSValue)
  | propertyAccess (property : String) (schema : String)
  | propertyValidation (property : String) (value : JSValue) (expectedType : String)
  | selectionValidation (property : String) (value : JSValue) (validOptions : List String)
deriving Repr

/-- JS `options.includes(v)` where `options` is a string array and `v` an
arbitrary runtime value (strict equality: only equal strings match). -/
def jsIncludes (options : List String) (v : JSValue) : Bool :=
  match v with
  | .vStr s => options.contains s
  | _ => false

/-- `validatePropertyValue` (validator module): throws on mismatch,
returns normally on success; null/undefined always pass. -/
def validatePropertyValue (value : JSValue) (definition : PropertyDefinition)
    (propertyName : String) : Except TypedError Unit :=
  match value with
  | .vNull => .ok ()
  | .vUndefined => .ok ()
  | _ =>
    match definition with
    | .title | .rich_text =>
        if jsTypeof value = "string" then .ok ()
        else .error (.propertyValidation propertyName value "string")
    | .email =>
        match value with
        | .vStr s =>
            if isValidEmail s then .ok ()
            else .error (.propertyValidation propertyName value "valid email address")
        | _ => .error (.propertyValidation propertyName value "string")
    | .url =>
        match value with
        | .vStr s =>
            if isValidURL s then .ok ()
            else .error (.propertyValidation propertyName value "valid URL")
        | _ => .error (.propertyValidation propertyName value "string")
    | .number _ =>
        match value with
        | .vNum .nan => .error (.propertyValidation propertyName value "number")
        | .vNum _ => .ok ()
        | _ => .error (.propertyValidation propertyName value "number")
    | .checkbox =>
        match value with
        | .vBool _ => .ok ()
        | _ => .error (.propertyValidation propertyName value "boolean")
    | .date =>
        match value with
        | .vDate => .ok ()
        | _ => .error (.propertyValidation propertyName value "Date")
    | .select options =>
        match value with
        | .vStr s =>
            if options.contains s then .ok ()
            else .error (.selectionValidation propertyName value options)
        | _ => .error (.propertyValidation propertyName value "string")
    | .multi_select options =>
        match value with
        | .vArr elems =>
            if elems.all (fun v => jsTypeof v = "string") then
              match (elems.filter (fun v => !jsIncludes options v)).head? with
              | some bad => .error (.selectionValidation propertyName bad options)
              | none => .ok ()
            else .error (.propertyValidation propertyName value "string[]")
        | _ => .error (.propertyValidation propertyName value "string[]")
    | .people =>
        match value with
        | .vArr elems =>
            if elems.all isValidNotionUser then .ok ()
            else .error (.propertyValidation propertyName value
                  "array of valid NotionUser objects")
        | _ => .error (.propertyValidation propertyName value "NotionUser[]")

/-- First stored definition for a property name. -/
def lookupProp : List (String × PropertyDefinition) → String → Option PropertyDefinition
  | [], _ => none
  | (k, d) :: rest, key => if k = key then some d else lookupProp rest key

/-- `TypedSchema.hasProperty`: `name in properties`. -/
def hasProperty (s : Schema) (name : String) : Bool :=
  (lookupProp s.properties name).isSome

/-- `TypedSchema.getProperty`: throws `PropertyAccessError` with the
property name and the owning database id when the name is absent,
otherwise returns the stored definition. -/
def getProperty (s : Schema) (name : String) : Except TypedError PropertyDefinition :=
  match lookupProp s.properties name with
  | some d => .ok d
  | none => .error (.propertyAccess name s.databaseId)

/-- Pure body of the bound predicate from `createPropertyValidator`, for
a non-null value: the switch over the property's type tag. -/
def propertyTypeCheck (propDef : PropertyDefinition) (value : JSValue) : Bool :=
  match propDef with
  | .title | .rich_text | .url | .email => jsTypeof value = "string"
  | .number _ =>
      match value with
      | .vNum .nan => false
      | .vNum _ => true
      | _ => false
  | .checkbox =>
      match value with
      | .vBool _ => true
      | _ => false
  | .date =>
      match value with
      | .vDate => true
      | _ => false
  | .select options => jsIncludes options value
  | .multi_select options =>
      match value with
      | .vArr elems =>
          elems.all (fun v =>
            match v with
            | .vStr s => options.contains s
            | _ => false)
      | _ => false
  | .people =>
      match value with
      | .vArr _ => true
      | _ => false

/-- The closure returned by `TypedSchema.createPropertyValidator`: it
looks the property up first (so an unknown name raises
`PropertyAccessError`), then treats null/undefined as valid, then runs
the per-type boolean check. -/
def createPropertyValidator (s : Schema) (name : String) (value : JSValue) :
    Except TypedError Bool :=
  match getProperty s name with
  | .error e => .error e
  | .ok propDef =>
      match value with
      | .vNull => .ok true
      | .vUndefined => .ok true
      | _ => .ok (propertyTypeCheck propDef value)

/-! ## Creation-time validation (valibot module)

`validateSchemaDefinition` is `v.parse(schemaDefinitionSchema, schema)`;
the embedding returns `some` of the parsed schema exactly when the parse
succeeds.  The valibot object schemas ignore unknown keys; `v.optional`
accepts only an absent (`undefined`) field besides its inner schema. -/

/-- The `format` field of a `number` property: absent is fine, otherwise
it must be one of the three picklist tags. -/
def parseNumberFormat : JSValue → Option (Option NumberFormat)
  | .vUndefined => some none
  | .vStr "number" => some (some .number)
  | .vStr "percent" => some (some .percent)
  | .vStr "dollar" => some (some .dollar)
  | _ => none

/-- The element-wise `v.array(v.string())` step: every element must be a
string. -/
def parseStringList : List JSValue → Option (List String)
  | [] => some []
  | .vStr s :: rest => (parseStringList rest).map (fun ss => s :: ss)
  | _ :: _ => none

/-- The `options` pipe for `select`/`multi_select`: an array of strings
that is non-empty and set-wise duplicate-free (no blank-string check
here). -/
def parseOptionsList (v : JSValue) : Option (List String) :=
  match v with
  | .vArr elems =>
      match parseStringList elems with
      | some strs =>
          if strs.length > 0 && !hasDup strs then some strs else none
      | none => none
  | _ => none

/-- The discriminator of a candidate property literal: its `type` field,
when the literal is an object whose `type` field is a string. -/
def typeTagOf (v : JSValue) : Option String :=
  match v with
  | .vObj fields =>
      match getField fields "type" with
      | .vStr t => some t
      | _ => none
  | _ => none

/-- The per-branch validation of `propertyDefinitionSchema`, given the
already-extracted `type` tag `t` of the literal `v`. -/
def parseTaggedProperty (t : String) (v : JSValue) : Option PropertyDefinition :=
  if t = "title" then some .title
  else if t = "rich_text" then some .rich_text
  else if t = "number" then (parseNumberFormat (getFieldV v "format")).map .number
  else if t = "checkbox" then some .checkbox
  else if t = "date" then some .date
  else if t = "url" then some .url
  else if t = "email" then some .email
  else if t = "select" then (parseOptionsList (getFieldV v "options")).map .select
  else if t = "multi_select" then
    (parseOptionsList (getFieldV v "options")).map .multi_select
  else if t = "people" then some .people
  else none

/-- `propertyDefinitionSchema`: a variant on the `type` tag over the 10
known kinds; the branch selected by the tag validates its extra fields
(unknown keys are ignored). -/
def parsePropertyDefinition (v : JSValue) : Option PropertyDefinition :=
  match typeTagOf v with
  | none => none
  | some t => parseTaggedProperty t v

/-- Entry-wise parse of the `properties` record's bindings. -/
def parseProps : List (String × JSValue) → Option (List (String × PropertyDefinition))
  | [] => some []
  | (k, v) :: rest =>
      match parsePropertyDefinition v, parseProps rest with
      | some d, some ds => some ((k, d) :: ds)
      | _, _ => none

/-- The `properties` record: a plain object each of whose values parses
as a property definition (keys are arbitrary strings). -/
def parsePropertiesRecord (v : JSValue) : Option (List (String × PropertyDefinition)) :=
  match v with
  | .vObj fields => parseProps fields
  | _ => none

/-- The `databaseId` pipe: a non-empty string matching
`^[a-f0-9\-]{36}$`. -/
def parseDatabaseId (v : JSValue) : Option String :=
  match v with
  | .vStr s => if s.length ≥ 1 && isValidDatabaseId s then some s else none
  | _ => none

/-- The three `v.check`s on the parsed properties record: at least one
property, at most 20, and exactly one `title`. -/
def schemaChecksPass (props : List (String × PropertyDefinition)) : Bool :=
  props.length > 0 && props.length ≤ 20 &&
    (props.filter (fun p => p.2 = PropertyDefinition.title)).length = 1

/-- `validateSchemaDefinition` (valibot): parse the object, its
`databaseId` and `properties` fields, then run the record checks. -/
def validateSchemaDefinition (lit : JSValue) : Option Schema :=
  match lit with
  | .vObj fields =>
      match parseDatabaseId (getField fields "databaseId"),
            parsePropertiesRecord (getField fields "properties") with
      | some db, some props =>
          if schemaChecksPass props then some ⟨db, props⟩ else none
      | _, _ => none
  | _ => none

/-- The `TypedSchema` constructor / `createTypedSchema`: runs
`validateSchemaDefinition`; any failure is rethrown as
`SchemaValidationError("schema", "valid schema definition",
definition)`. -/
def constructTypedSchema (definition : JSValue) : Except TypedError Schema :=
  match validateSchemaDefinition definition with
  | some s => .ok s
  | none => .error (.schemaValidation "schema" "valid schema definition" definition)

/-! ## Structural validator (validator module, non-throwing form) -/

/-- Result of the non-throwing structural validator. -/
structure ValidationResult where
  isValid : Bool
  errors : List String
deriving DecidableEq, Repr

/-- Structural-validation configuration. -/
structure ValidationConfig where
  maxProperties : Nat
  minProperties : Nat
  requireTitle : Bool
  allowMultipleTitles : Bool
deriving DecidableEq, Repr

/-- The default configuration. -/
def DEFAULT_VALIDATION_CONFIG : ValidationConfig :=
  ⟨20, 1, true, false⟩

/-- `isPropertyDefinition` type guard: a (truthy) object whose `type`
field is one of the 10 known tags. -/
def isPropertyDefinition (v : JSValue) : Bool :=
  if !truthy v || jsTypeof v ≠ "object" then false
  else
    match getFieldV v "type" with
    | .vStr t =>
        ["title", "rich_text", "number", "checkbox", "date",
         "url", "email", "select", "multi_select", "people"].contains t
    | _ => false

/-- `validatePropertyName` (validator module): the accumulated error
messages for a property name. -/
def validatePropertyName (name : String) : List String :=
  if name = "" then ["Property name must be a non-empty string"]
  else
    (if name.length > 100 then ["Property name cannot exceed 100 characters"] else []) ++
    (if (match name.toList with
         | c :: _ => isAsciiLetter c
         | [] => false) then []
     else ["Property name must start with a letter"]) ++
    (if (match name.toList with
         | c :: rest =>
             isAsciiLetter c &&
               rest.all (fun d => isAsciiLetter d || isAsciiDigit d || d = '_' || isJSWhitespace d)
         | [] => false) then []
     else ["Property name can only contain letters, numbers, underscores, and spaces"])

/-- `isValidNumberFormat`: the value is one of the three format tags. -/
def isValidNumberFormat (v : JSValue) : Bool :=
  match v with
  | .vStr s => s = "number" || s = "percent" || s = "dollar"
  | _ => false

/-- `validateSelectionOptions` (validator module): accumulated error
messages; unlike the valibot pipe this one also rejects blank strings. -/
def validateSelectionOptions (options : JSValue) (propertyName : String) : List String :=
  match options with
  | .vArr elems =>
      (if elems.length = 0 then
         ["Property '" ++ propertyName ++ "': Selection options cannot be empty"] else []) ++
      (if (elems.filter (fun o => jsTypeof o ≠ "string")).length > 0 then
         ["Property '" ++ propertyName ++ "': All options must be strings"] else []) ++
      (if (elems.filter (fun o =>
            match o with
            | .vStr s => isBlank s
            | _ => false)).length > 0 then
         ["Property '" ++ propertyName ++ "': Options cannot be empty strings"] else []) ++
      (if hasDup (elems.filterMap (fun o =>
            match o with
            | .vStr s => some s
            | _ => none)) then
         ["Property '" ++ propertyName ++ "': Options must be unique"] else [])
  | _ => ["Property '" ++ propertyName ++ "': Options must be an array"]

/-- `validatePropertyStructure`: name errors, then the definition type
guard, then the per-type rules. -/
def validatePropertyStructure (name : String) (definition : JSValue) : List String :=
  validatePropertyName name ++
    (if !isPropertyDefinition definition then
       ["Property '" ++ name ++ "': Invalid property definition structure"]
     else
       match getFieldV definition "type" with
       | .vStr "number" =>
           -- source message interpolates the offending format value; the
           -- stringification of an arbitrary JS value is elided here
           if truthy (getFieldV definition "format") &&
               !isValidNumberFormat (getFieldV definition "format") then
             ["Property '" ++ name ++ "': Invalid number format"]
           else []
       | .vStr "select" =>
           (match definition with
            | .vObj fields =>
                if !hasKey fields "options" ||
                    !(match getField fields "options" with
                      | .vArr _ => true
                      | _ => false) then
                  ["Property '" ++ name ++ "': Selection properties must have options array"]
                else validateSelectionOptions (getField fields "options") name
            | _ => [])
       | .vStr "multi_select" =>
           (match definition with
            | .vObj fields =>
                if !hasKey fields "options" ||
                    !(match getField fields "options" with
                      | .vArr _ => true
                      | _ => false) then
                  ["Property '" ++ name ++ "': Selection properties must have options array"]
                else validateSelectionOptions (getField fields "options") name
            | _ => [])
       | _ => [])

/-- `Object.entries` for the values the validator can reach: objects
yield their fields, arrays index-keyed entries, a Date none. -/
def entriesOf : JSValue → List (String × JSValue)
  | .vObj fields => fields
  | .vArr elems => ((List.range elems.length).zip elems).map (fun p => (toString p.1, p.2))
  | _ => []

/-- The guard `!typedSchema.properties || typeof typedSchema.properties
!== 'object'` that triggers the properties short-circuit. -/
def propertiesFieldInvalid (v : JSValue) : Bool :=
  !truthy v || !(jsTypeof v == "object")

/-- The databaseId step of `validateSchemaStructure`. -/
def databaseIdErrors (v : JSValue) : List String :=
  if !truthy v || jsTypeof v ≠ "string" then
    ["Database ID is required and must be a string"]
  else
    match v with
    | .vStr s => if !isValidDatabaseId s then ["Database ID must be a valid UUID format"] else []
    | _ => []

/-- `validateSchemaStructure`: the accumulating, non-throwing rule
pipeline. -/
def validateSchemaStructure (schema : JSValue)
    (config : ValidationConfig := DEFAULT_VALIDATION_CONFIG) : ValidationResult :=
  if !truthy schema || jsTypeof schema ≠ "object" then
    ⟨false, ["Schema must be a non-null object"]⟩
  else
    let dbErrors := databaseIdErrors (getFieldV schema "databaseId")
    let props := getFieldV schema "properties"
    if propertiesFieldInvalid props then
      ⟨false, dbErrors ++ ["Properties are required and must be an object"]⟩
    else
      let propertyEntries := entriesOf props
      let countErrors :=
        (if propertyEntries.length < config.minProperties then
           ["Schema must have at least " ++ toString config.minProperties ++ " property"]
         else []) ++
        (if propertyEntries.length > config.maxProperties then
           ["Schema cannot have more than " ++ toString config.maxProperties ++ " properties"]
         else [])
      let titleCount :=
        (propertyEntries.filter (fun p =>
          isPropertyDefinition p.2 &&
            (match getFieldV p.2 "type" with
             | .vStr s => s = "title"
             | _ => false))).length
      let titleErrors :=
        (if config.requireTitle && titleCount = 0 then
           ["Schema must have exactly one title property"] else []) ++
        (if !config.allowMultipleTitles && titleCount > 1 then
           ["Schema cannot have multiple title properties"] else [])
      let perPropertyErrors :=
        propertyEntries.flatMap (fun p => validatePropertyStructure p.1 p.2)
      let errors := dbErrors ++ countErrors ++ titleErrors ++ perPropertyErrors
      ⟨errors.length = 0, errors⟩

/-! ## Concrete fixtures -/

/-- The UUID-shaped database id used throughout the repository's tests. -/
def dbId : String := "12345678-1234-5678-9abc-123456789abc"

/-- A `title` property literal. -/
def titleLit : JSValue := .vObj [("type", .vStr "title")]

/-- The contact-schema literal (title + email + url + people), mirroring
the integration tests. -/
def contactLit : JSValue :=
  .vObj [("databaseId", .vStr dbId),
         ("properties", .vObj
           [("Title", titleLit),
            ("ContactEmail", .vObj [("type", .vStr "email")]),
            ("Website", .vObj [("type", .vStr "url")]),
            ("TeamMembers", .vObj [("type", .vStr "people")])])]

/-- The validated form of `contactLit`. -/
def contactSchema : Schema :=
  ⟨dbId, [("Title", .title), ("ContactEmail", .email),
          ("Website", .url), ("TeamMembers", .people)]⟩

/-- A schema literal whose only extra property name starts with a digit. -/
def badNameLit : JSValue :=
  .vObj [("databaseId", .vStr dbId),
         ("properties", .vObj [("123Bad", titleLit)])]

/-- The validated form of `badNameLit`. -/
def badNameSchema : Schema := ⟨dbId, [("123Bad", .title)]⟩

/-- A property name of length 101. -/
def name101 : String := String.mk (List.replicate 101 'a')

/-- A schema literal whose only property name has length 101. -/
def name101Lit : JSValue :=
  .vObj [("databaseId", .vStr dbId),
         ("properties", .vObj [(name101, titleLit)])]

/-- The validated form of `name101Lit`. -/
def name101Schema : Schema := ⟨dbId, [(name101, .title)]⟩

/-- A schema literal with a select property whose single option is a
blank (whitespace-only) string. -/
def blankOptionLit : JSValue :=
  .vObj [("databaseId", .vStr dbId),
         ("properties", .vObj
           [("Title", titleLit),
            ("Status", .vObj [("type", .vStr "select"),
                              ("options", .vArr [.vStr " "])])])]

/-- The validated form of `blankOptionLit`. -/
def blankOptionSchema : Schema :=
  ⟨dbId, [("Title", .title), ("Status", .select [" "])]⟩

/-- A schema literal with a single non-title property. -/
def noTitleLit : JSValue :=
  .vObj [("databaseId", .vStr dbId),
         ("properties", .vObj [("Age", .vObj [("type", .vStr "number")])])]

/-- A schema with a number property, for the number-rule witnesses. -/
def numberSchema : Schema :=
  ⟨dbId, [("Title", .title), ("Age", .number none)]⟩

/-! ## Helper lemmas about the creation-time parse -/

/-- A property literal of the `title` variant: an object whose `type`
field is the string "title". -/
def isTitleLiteral (v : JSValue) : Bool :=
  typeTagOf v == some "title"

/-- Number of `title`-variant property literals in a field list. -/
def titleLitCount (props : List (String × JSValue)) : Nat :=
  (props.filter (fun p => isTitleLiteral p.2)).length

theorem parseOptionsList_sound (v : JSValue) (opts : List String)
    (h : parseOptionsList v = some opts) : opts ≠ [] ∧ hasDup opts = false := by
  unfold parseOptionsList at h
  rcases v with _ | _ | b | n | str | elems | fields | _ <;> simp at h
  rcases hps : parseStringList elems with _ | strs <;> rw [hps] at h <;> simp at h
  obtain ⟨⟨h1, h2⟩, rfl⟩ := h
  exact ⟨List.ne_nil_of_length_pos h1, h2⟩

theorem parsePropertyDefinition_eq_none (v : JSValue) (ht : typeTagOf v = none) :
    parsePropertyDefinition v = none := by
  unfold parsePropertyDefinition
  rw [ht]

theorem parsePropertyDefinition_eq_tagged (v : JSValue) (t : String)
    (ht : typeTagOf v = some t) :
    parsePropertyDefinition v = parseTaggedProperty t v := by
  unfold parsePropertyDefinition
  rw [ht]

set_option maxHeartbeats 1600000 in
theorem parsePropertyDefinition_title_iff (v : JSValue) (d : PropertyDefinition)
    (h : parsePropertyDefinition v = some d) :
    (d = .title ↔ isTitleLiteral v = true) := by
  unfold isTitleLiteral
  rcases ht : typeTagOf v with _ | t
  · rw [parsePropertyDefinition_eq_none v ht] at h
    simp at h
  · rw [parsePropertyDefinition_eq_tagged v t ht] at h
    unfold parseTaggedProperty at h
    split_ifs at h with h1 h2 h3 h4 h5 h6 h7 h8 h9 h10
    all_goals try (rcases Option.map_eq_some'.mp h with ⟨x, hx, rfl⟩)
    all_goals try (cases h)
    all_goals simp [h1]

theorem parseProps_titleCount (fields : List (String × JSValue))
    (parsed : List (String × PropertyDefinition))
    (h : parseProps fields = some parsed) :
    (parsed.filter (fun p => p.2 = PropertyDefinition.title)).length = titleLitCount fields := by
  induction fields generalizing parsed with
  | nil =>
      obtain rfl : ([] : List (String × PropertyDefinition)) = parsed := by
        simpa [parseProps] using h
      simp [titleLitCount]
  | cons kv rest ih =>
      obtain ⟨k, v⟩ := kv
      unfold parseProps at h
      rcases hd : parsePropertyDefinition v with _ | d <;> rw [hd] at h
      · simp at h
      rcases hr : parseProps rest with _ | ds <;> rw [hr] at h
      · simp at h
      obtain rfl : (k, d) :: ds = parsed := by simpa using h
      have hiff := parsePropertyDefinition_title_iff v d hd
      have htail := ih ds hr
      simp only [titleLitCount, List.filter_cons] at htail ⊢
      by_cases hb : isTitleLiteral v = true
      · have hd1 : d = PropertyDefinition.title := hiff.mpr hb
        subst hd1
        simp [hb, htail]
      · have hd1 : ¬ d = PropertyDefinition.title := fun hh => hb (hiff.mp hh)
        simp [hb, hd1, htail]

theorem parseProps_mem (fields : List (String × JSValue))
    (parsed : List (String × PropertyDefinition))
    (h : parseProps fields = some parsed)
    (name : String) (d : PropertyDefinition) (hmem : (name, d) ∈ parsed) :
    ∃ v, (name, v) ∈ fields ∧ parsePropertyDefinition v = some d := by
  induction fields generalizing parsed with
  | nil =>
      obtain rfl : ([] : List (String × PropertyDefinition)) = parsed := by
        simpa [parseProps] using h
      simp at hmem
  | cons kv rest ih =>
      obtain ⟨k, v⟩ := kv
      unfold parseProps at h
      rcases hd : parsePropertyDefinition v with _ | d0 <;> rw [hd] at h
      · simp at h
      rcases hr : parseProps rest with _ | ds <;> rw [hr] at h
      · simp at h
      obtain rfl : (k, d0) :: ds = parsed := by simpa using h
      rcases List.mem_cons.mp hmem with heq | htail
      · obtain ⟨rfl, rfl⟩ : name = k ∧ d = d0 := by simpa using heq
        exact ⟨v, List.mem_cons_self _ _, hd⟩
      · obtain ⟨w, hw, hpw⟩ := ih ds hr htail
        exact ⟨w, List.mem_cons_of_mem _ hw, hpw⟩

set_option maxHeartbeats 1600000 in
theorem parsePropertyDefinition_selection (v : JSValue) (d : PropertyDefinition)
    (h : parsePropertyDefinition v = some d) (opts : List String)
    (hsel : d = .select opts ∨ d = .multi_select opts) :
    opts ≠ [] ∧ hasDup opts = false := by
  rcases ht : typeTagOf v with _ | t
  · rw [parsePropertyDefinition_eq_none v ht] at h
    simp at h
  · rw [parsePropertyDefinition_eq_tagged v t ht] at h
    unfold parseTaggedProperty at h
    split_ifs at h
    all_goals try (rcases Option.map_eq_some'.mp h with ⟨x, hx, rfl⟩)
    all_goals try (cases h)
    all_goals rcases hsel with hsel | hsel
    all_goals try (cases hsel)
    all_goals exact parseOptionsList_sound _ _ hx

theorem schemaChecksPass_iff (parsed : List (String × PropertyDefinition)) :
    schemaChecksPass parsed = true ↔
      0 < parsed.length ∧ parsed.length ≤ 20 ∧
        (parsed.filter (fun p => p.2 = PropertyDefinition.title)).length = 1 := by
  unfold schemaChecksPass
  simp [and_assoc]

theorem parsePropertiesRecord_some (v : JSValue)
    (parsed : List (String × PropertyDefinition))
    (h : parsePropertiesRecord v = some parsed) :
    ∃ pf, v = .vObj pf ∧ parseProps pf = some parsed := by
  unfold parsePropertiesRecord at h
  rcases v with _ | _ | b | n | str | elems | pf | _ <;> simp at h
  exact ⟨pf, rfl, h⟩

/-! ## Claim theorems -/

/-- C3: a schema literal whose properties object holds zero or at least
two `title`-variant properties makes `TypedSchema` construction throw
`SchemaValidationError`; with exactly one `title` property and every
other creation-time rule satisfied (valid database id, all property
definitions parse, property count within 1..20), construction
succeeds. -/
theorem C3_exactly_one_title_invariant (lit : JSValue)
    (fields : List (String × JSValue))
    (hp : getFieldV lit "properties" = .vObj fields) :
    (titleLitCount fields ≠ 1 →
       constructTypedSchema lit =
         .error (.schemaValidation "schema" "valid schema definition" lit)) ∧
    (∀ db parsed, parseDatabaseId (getFieldV lit "databaseId") = some db →
       parseProps fields = some parsed →
       0 < parsed.length → parsed.length ≤ 20 →
       titleLitCount fields = 1 →
       constructTypedSchema lit = .ok ⟨db, parsed⟩) := by
  cases lit
  case vObj lf =>
    simp only [getFieldV] at hp
    constructor
    · intro hne
      have hnone : validateSchemaDefinition (.vObj lf) = none := by
        simp only [validateSchemaDefinition]
        rw [hp]
        simp only [parsePropertiesRecord]
        rcases hdb2 : parseDatabaseId (getField lf "databaseId") with _ | db <;>
          rcases hpr : parseProps fields with _ | parsed
        · rfl
        · rfl
        · rfl
        · have hcc : schemaChecksPass parsed = false := by
            rcases hb : schemaChecksPass parsed with _ | _
            · rfl
            · exfalso
              apply hne
              rw [← parseProps_titleCount fields parsed hpr]
              exact ((schemaChecksPass_iff parsed).mp hb).2.2
          simp [hcc]
      unfold constructTypedSchema
      rw [hnone]
    · intro db parsed hdb hpr h1 h2 hco
      simp only [getFieldV] at hdb
      have hsome : validateSchemaDefinition (.vObj lf) = some ⟨db, parsed⟩ := by
        simp only [validateSchemaDefinition]
        rw [hp, hdb]
        simp only [parsePropertiesRecord]
        rw [hpr]
        have hcc : schemaChecksPass parsed = true :=
          (schemaChecksPass_iff parsed).mpr
            ⟨h1, h2, by rw [parseProps_titleCount fields parsed hpr]; exact hco⟩
        simp [hcc]
      unfold constructTypedSchema
      rw [hsome]
  all_goals simp [getFieldV] at hp

/-- C3 witness: construction succeeds on the contact schema (exactly one
title), and throws on a schema whose single property is not a title. -/
theorem C3_witness :
    constructTypedSchema contactLit = .ok contactSchema ∧
    constructTypedSchema noTitleLit =
      .error (.schemaValidation "schema" "valid schema definition" noTitleLit) := by
  constructor
  · exact (C3_exactly_one_title_invariant contactLit
      [("Title", titleLit),
       ("ContactEmail", .vObj [("type", .vStr "email")]),
       ("Website", .vObj [("type", .vStr "url")]),
       ("TeamMembers", .vObj [("type", .vStr "people")])] rfl).2
      dbId contactSchema.properties rfl rfl (by decide) (by decide) (by decide)
  · exact (C3_exactly_one_title_invariant noTitleLit
      [("Age", .vObj [("type", .vStr "number")])] rfl).1 (by decide)

/-- C4 (amended): every schema accepted by `TypedSchema` construction has,
for each `select`/`multi_select` property, a non-empty and duplicate-free
options list; the blank-option rule is not enforced at construction. -/
theorem C4_options_invariant_of_construction (lit : JSValue) (s : Schema)
    (hok : constructTypedSchema lit = .ok s)
    (name : String) (opts : List String)
    (hmem : (name, PropertyDefinition.select opts) ∈ s.properties ∨
            (name, PropertyDefinition.multi_select opts) ∈ s.properties) :
    opts ≠ [] ∧ hasDup opts = false := by
  have hv : validateSchemaDefinition lit = some s := by
    unfold constructTypedSchema at hok
    rcases hv : validateSchemaDefinition lit with _ | s0 <;> rw [hv] at hok
    · cases hok
    · cases hok; rfl
  cases lit
  case vObj lf =>
    simp only [validateSchemaDefinition] at hv
    rcases hdb : parseDatabaseId (getField lf "databaseId") with _ | db <;> rw [hdb] at hv
    · simp at hv
    rcases hpr : parsePropertiesRecord (getField lf "properties") with _ | parsed <;>
      rw [hpr] at hv
    · simp at hv
    obtain ⟨pf, hpf, hparse⟩ := parsePropertiesRecord_some _ _ hpr
    have hs : s.properties = parsed := by
      rcases hb : schemaChecksPass parsed with _ | _ <;> simp [hb] at hv
      subst hv
      rfl
    rw [hs] at hmem
    rcases hmem with hm | hm
    · obtain ⟨w, hw, hpw⟩ := parseProps_mem pf parsed hparse name _ hm
      exact parsePropertyDefinition_selection w _ hpw opts (Or.inl rfl)
    · obtain ⟨w, hw, hpw⟩ := parseProps_mem pf parsed hparse name _ hm
      exact parsePropertyDefinition_selection w _ hpw opts (Or.inr rfl)
  all_goals simp [validateSchemaDefinition] at hv

/-- C4 counterexample: the claim says construction throws for any schema
whose options contain a blank element, but a select property whose single
option is the blank string " " is accepted by construction. -/
theorem C4_counterexample :
    constructTypedSchema blankOptionLit = .ok blankOptionSchema ∧
    isBlank " " = true := ⟨rfl, rfl⟩

/-- C4 witness: the accepted blank-option schema indeed has a non-empty,
duplicate-free options list for its select property. -/
theorem C4_witness :
    ([" "] : List String) ≠ [] ∧ hasDup [" "] = false :=
  C4_options_invariant_of_construction blankOptionLit blankOptionSchema rfl
    "Status" [" "] (Or.inl (by decide))

/-- C1: the spec claims the two validation surfaces are equivalent, but
the bound predicate accepts the string "invalid-email" for an email
property, the string "invalid-url" for a url property, and the array
["string"] for a people property, on each of which
`validatePropertyValue` throws; the integration tests expect the
predicate to return false on exactly these inputs. -/
theorem C1_surfaces_diverge :
    constructTypedSchema contactLit = .ok contactSchema ∧
    createPropertyValidator contactSchema "ContactEmail" (.vStr "invalid-email") =
      .ok true ∧
    validatePropertyValue (.vStr "invalid-email") .email "ContactEmail" =
      .error (.propertyValidation "ContactEmail" (.vStr "invalid-email")
        "valid email address") ∧
    createPropertyValidator contactSchema "Website" (.vStr "invalid-url") = .ok true ∧
    validatePropertyValue (.vStr "invalid-url") .url "Website" =
      .error (.propertyValidation "Website" (.vStr "invalid-url") "valid URL") ∧
    createPropertyValidator contactSchema "TeamMembers" (.vArr [.vStr "string"]) =
      .ok true ∧
    validatePropertyValue (.vArr [.vStr "string"]) .people "TeamMembers" =
      .error (.propertyValidation "TeamMembers" (.vArr [.vStr "string"])
        "array of valid NotionUser objects") :=
  ⟨rfl, rfl, rfl, rfl, rfl, rfl, rfl⟩

/-- C2 counterexample: the claim says construction throws for a property
name starting with a digit or of length 101, but construction succeeds
on both literals (creation-time validation only requires names to be
strings). -/
theorem C2_counterexample :
    constructTypedSchema badNameLit = .ok badNameSchema ∧
    constructTypedSchema name101Lit = .ok name101Schema := ⟨rfl, rfl⟩

/-- C2 (amended): the property-name format rules live in the structural
validator, not in handle construction: `validatePropertyName` rejects
"123Bad" and a length-101 name and accepts "Valid_Name 2" and a
length-100 name, `validateSchemaStructure` marks the bad-name literals
invalid, yet `TypedSchema` construction accepts those same literals. -/
theorem C2_name_rules_in_structural_validator :
    validatePropertyName "123Bad" =
      ["Property name must start with a letter",
       "Property name can only contain letters, numbers, underscores, and spaces"] ∧
    validatePropertyName name101 = ["Property name cannot exceed 100 characters"] ∧
    validatePropertyName "Valid_Name 2" = [] ∧
    validatePropertyName (String.mk (List.replicate 100 'a')) = [] ∧
    (validateSchemaStructure badNameLit DEFAULT_VALIDATION_CONFIG).isValid = false ∧
    (validateSchemaStructure name101Lit DEFAULT_VALIDATION_CONFIG).isValid = false ∧
    constructTypedSchema badNameLit = .ok badNameSchema ∧
    constructTypedSchema name101Lit = .ok name101Schema :=
  ⟨by decide, by decide, by decide, by decide, by decide, by decide, rfl, rfl⟩

/-- C5: null and undefined always pass `validatePropertyValue` for every
variant, and the bound predicate returns true on null/undefined for
every property present in the handle's schema. -/
theorem C5_null_always_valid :
    (∀ (d : PropertyDefinition) (name : String),
        validatePropertyValue .vNull d name = .ok () ∧
        validatePropertyValue .vUndefined d name = .ok ()) ∧
    (∀ (s : Schema) (name : String), hasProperty s name = true →
        createPropertyValidator s name .vNull = .ok true ∧
        createPropertyValidator s name .vUndefined = .ok true) := by
  constructor
  · intro d name
    exact ⟨rfl, rfl⟩
  · intro s name h
    unfold hasProperty at h
    rcases hl : lookupProp s.properties name with _ | d
    · rw [hl] at h; simp at h
    · unfold createPropertyValidator getProperty
      rw [hl]
      exact ⟨rfl, rfl⟩

/-- C5 witness: the contact schema's Title property accepts null and
undefined through the bound predicate. -/
theorem C5_witness :
    hasProperty contactSchema "Title" = true ∧
    createPropertyValidator contactSchema "Title" .vNull = .ok true ∧
    createPropertyValidator contactSchema "Title" .vUndefined = .ok true :=
  ⟨rfl, (C5_null_always_valid.2 contactSchema "Title" rfl).1,
    (C5_null_always_valid.2 contactSchema "Title" rfl).2⟩

/-- The number check shared by both validation surfaces:
`typeof value === 'number' && !isNaN(value)` (so NaN is rejected but
positive and negative Infinity are accepted). -/
def isNumberNotNaN : JSValue → Bool
  | .vNum .nan => false
  | .vNum _ => true
  | _ => false

/-- C6 (amended): for a number property, a non-null value passes
`validatePropertyValue` exactly when it is a JS number other than NaN
(Infinity included); otherwise PropertyValidationError with
expectedType "number" is thrown; the bound predicate agrees. -/
theorem C6_number_rule (v : JSValue) (fmt : Option NumberFormat) (name : String)
    (s : Schema)
    (h1 : v ≠ .vNull) (h2 : v ≠ .vUndefined)
    (hs : lookupProp s.properties name = some (.number fmt)) :
    validatePropertyValue v (.number fmt) name =
      (if isNumberNotNaN v then .ok ()
       else .error (.propertyValidation name v "number")) ∧
    createPropertyValidator s name v = .ok (isNumberNotNaN v) := by
  have hg : getProperty s name = .ok (.number fmt) := by
    unfold getProperty; rw [hs]
  rcases v with _ | _ | b | n | str | elems | fields | _
  · exact absurd rfl h1
  · exact absurd rfl h2
  all_goals try rcases n with q | _ | _ | _
  all_goals exact ⟨rfl, by unfold createPropertyValidator; rw [hg]; rfl⟩

/-- C6 counterexample: the claim says only finite numbers are accepted,
but Infinity and -Infinity pass both surfaces. -/
theorem C6_counterexample :
    validatePropertyValue (.vNum .posInf) (.number none) "Amount" = .ok () ∧
    validatePropertyValue (.vNum .negInf) (.number none) "Amount" = .ok () ∧
    createPropertyValidator numberSchema "Age" (.vNum .posInf) = .ok true :=
  ⟨rfl, rfl, rfl⟩

/-- C6 witness: the amended rule evaluated at the finite number 30 on
the Age property. -/
theorem C6_witness :
    validatePropertyValue (.vNum (.finite 30)) (.number none) "Age" =
      (if isNumberNotNaN (.vNum (.finite 30)) then (.ok () : Except TypedError Unit)
       else .error (.propertyValidation "Age" (.vNum (.finite 30)) "number")) ∧
    createPropertyValidator numberSchema "Age" (.vNum (.finite 30)) =
      .ok (isNumberNotNaN (.vNum (.finite 30))) :=
  C6_number_rule (.vNum (.finite 30)) none "Age" numberSchema
    (by simp) (by simp) rfl

/-- C7: for a multi_select property given an array of strings containing
offenders, `validatePropertyValue` throws SelectionValidationError whose
context value is the first offending element in list order and whose
validOptions is the declared options list. -/
theorem C7_multi_select_first_offender (options : List String) (name : String)
    (vs : List String) (x : String)
    (hx : (vs.filter (fun s => !options.contains s)).head? = some x) :
    validatePropertyValue (.vArr (vs.map .vStr)) (.multi_select options) name =
      .error (.selectionValidation name (.vStr x) options) := by
  have hall : (vs.map JSValue.vStr).all (fun v => jsTypeof v = "string") = true := by
    simp [List.all_map, Function.comp, jsTypeof]
  have hfilter : (vs.map JSValue.vStr).filter (fun v => !jsIncludes options v)
      = (vs.filter (fun s => !options.contains s)).map JSValue.vStr := by
    rw [List.filter_map]
    rfl
  have hhead : ((vs.map JSValue.vStr).filter (fun v => !jsIncludes options v)).head?
      = some (JSValue.vStr x) := by
    rw [hfilter, List.head?_map, hx]
    rfl
  unfold validatePropertyValue
  simp [hall, hhead]

/-- C7 witness: the spec scenario with options ["Bug","Feature"] and
value ["Bug","Oops","Feature"] reports "Oops". -/
theorem C7_witness :
    ((["Bug", "Oops", "Feature"] : List String).filter
        (fun s => !(["Bug", "Feature"] : List String).contains s)).head? =
      some "Oops" ∧
    validatePropertyValue
        (.vArr ((["Bug", "Oops", "Feature"] : List String).map JSValue.vStr))
        (.multi_select ["Bug", "Feature"]) "Tags" =
      .error (.selectionValidation "Tags" (.vStr "Oops") ["Bug", "Feature"]) :=
  ⟨by decide, C7_multi_select_first_offender ["Bug", "Feature"] "Tags"
    ["Bug", "Oops", "Feature"] "Oops" (by decide)⟩

/-- C8 (amended): on an object input whose properties field is absent or
malformed, `validateSchemaStructure` short-circuits after the databaseId
step, returning isValid=false with any databaseId errors followed by the
single properties error; the embedding is a total function, so no input
throws. -/
theorem C8_properties_short_circuit (fields : List (String × JSValue))
    (config : ValidationConfig)
    (h : propertiesFieldInvalid (getField fields "properties") = true) :
    validateSchemaStructure (.vObj fields) config =
      ⟨false, databaseIdErrors (getField fields "databaseId") ++
        ["Properties are required and must be an object"]⟩ := by
  unfold validateSchemaStructure
  simp [getFieldV, jsTypeof, truthy, h]

/-- C8 counterexample: with an invalid databaseId and a null properties
field the claim predicts a single-error list, but the databaseId error
accumulates ahead of the properties error. -/
theorem C8_counterexample :
    (validateSchemaStructure
        (.vObj [("databaseId", .vNum (.finite 123)), ("properties", .vNull)])
        DEFAULT_VALIDATION_CONFIG).errors =
      ["Database ID is required and must be a string",
       "Properties are required and must be an object"] ∧
    (validateSchemaStructure
        (.vObj [("databaseId", .vNum (.finite 123)), ("properties", .vNull)])
        DEFAULT_VALIDATION_CONFIG).errors ≠
      ["Properties are required and must be an object"] := by
  exact ⟨by decide, by decide⟩

/-- C8 witness: the amended short-circuit shape evaluated on the
concrete two-error input. -/
theorem C8_witness :
    propertiesFieldInvalid (getField
      [("databaseId", JSValue.vNum (.finite 123)), ("properties", JSValue.vNull)]
      "properties") = true ∧
    validateSchemaStructure
        (.vObj [("databaseId", .vNum (.finite 123)), ("properties", .vNull)])
        DEFAULT_VALIDATION_CONFIG =
      ⟨false, databaseIdErrors (getField
          [("databaseId", JSValue.vNum (.finite 123)), ("properties", JSValue.vNull)]
          "databaseId") ++
        ["Properties are required and must be an object"]⟩ :=
  ⟨rfl, C8_properties_short_circuit
    [("databaseId", JSValue.vNum (.finite 123)), ("properties", JSValue.vNull)]
    DEFAULT_VALIDATION_CONFIG rfl⟩

/-- C9: for an absent name, getProperty throws PropertyAccessError
carrying the property name and the owning databaseId while hasProperty
returns false; for a present name, getProperty returns the stored
definition unchanged. -/
theorem C9_property_access_safety (s : Schema) (name : String) :
    (lookupProp s.properties name = none →
       getProperty s name = .error (.propertyAccess name s.databaseId) ∧
       hasProperty s name = false) ∧
    (∀ d, lookupProp s.properties name = some d →
       getProperty s name = .ok d ∧ hasProperty s name = true) := by
  constructor
  · intro h
    unfold getProperty hasProperty
    rw [h]
    exact ⟨rfl, rfl⟩
  · intro d h
    unfold getProperty hasProperty
    rw [h]
    exact ⟨rfl, rfl⟩

/-- C9 witness: property access on the contact schema, for the missing
name "Missing" and the present name "Title". -/
theorem C9_witness :
    lookupProp contactSchema.properties "Missing" = none ∧
    getProperty contactSchema "Missing" =
      .error (.propertyAccess "Missing" contactSchema.databaseId) ∧
    hasProperty contactSchema "Missing" = false ∧
    getProperty contactSchema "Title" = .ok .title := by
  refine ⟨rfl, ?_, ?_, ?_⟩
  · exact ((C9_property_access_safety contactSchema "Missing").1 rfl).1
  · exact ((C9_property_access_safety contactSchema "Missing").1 rfl).2
  · exact ((C9_property_access_safety contactSchema "Title").2 .title rfl).1

/-- C10: the bound predicate looks the property up before the null
check, so an unknown name throws PropertyAccessError for every value,
null and undefined included. -/
theorem C10_unknown_name_throws_before_null_check (s : Schema) (name : String)
    (value : JSValue) (h : lookupProp s.properties name = none) :
    createPropertyValidator s name value =
      .error (.propertyAccess name s.databaseId) := by
  unfold createPropertyValidator getProperty
  rw [h]

/-- C10 witness: the contact schema's predicate on the unknown name
"Missing" with null and undefined values. -/
theorem C10_witness :
    lookupProp contactSchema.properties "Missing" = none ∧
    createPropertyValidator contactSchema "Missing" .vNull =
      .error (.propertyAccess "Missing" contactSchema.databaseId) ∧
    createPropertyValidator contactSchema "Missing" .vUndefined =
      .error (.propertyAccess "Missing" contactSchema.databaseId) :=
  ⟨rfl,
    C10_unknown_name_throws_before_null_check contactSchema "Missing" .vNull rfl,
    C10_unknown_name_throws_before_null_check contactSchema "Missing" .vUndefined rfl⟩

end TypedNotion
